import Mathlib

/-
  Verification of the Spectremesh fear-calibration core.

  Shallow embedding conventions:
  * Rust `f32` values are modelled as real numbers (`ℝ`); the possibility
    of a non-finite float (NaN / infinity) at the calibrator input is
    modelled by the marker type `F32` below, matching the single
    `is_finite` check in the source.  All arithmetic on values that the
    source keeps finite is real arithmetic.
  * `Instant` timestamps are modelled as real numbers passed explicitly
    (`now : ℝ`); `start_time.elapsed()` becomes `now - start_time`
    (the monotonic clock guarantees `now ≥ start_time`, so the
    saturating subtraction of `Instant::elapsed` never saturates).
  * Rust methods taking `&mut self` and returning `Result<T, E>` become
    functions returning the updated state paired with an
    `Except E T` result; an early `return Err(..)` in the source
    returns the unchanged state.
  * The `as usize` cast of an `f32` truncates toward zero and saturates
    at zero for negative values, which is exactly `Nat.floor` on `ℝ`.
-/

noncomputable section

namespace Spectremesh

/-- A 32-bit float at the calibrator boundary: either a finite value
(modelled as a real) or a non-finite value (NaN or an infinity). -/
inductive F32 where
  | finite (val : ℝ)
  | nonFinite

/-- Mirrors `f32::is_finite`. -/
def F32.is_finite : F32 → Bool
  | .finite _ => true
  | .nonFinite => false

/-- Errors of the batch calibrator, from `crates/core/src/error.rs`
(only the variant used by `calibration.rs` is needed). -/
inductive FearError where
  | CalibrationIncomplete

/-- Batch calibrator state, from `crates/fear_sensor/src/calibration.rs`
(`struct FearCalibrator`). -/
structure FearCalibrator where
  baseline_samples : List ℝ
  target_samples : ℕ
  mean : ℝ
  std_dev : ℝ
  calibrated : Bool

/-- `FearCalibrator::new`: `target_samples = (calibration_duration * fps) as usize`
(truncating cast, saturating at 0). -/
def FearCalibrator.new (calibration_duration fps : ℝ) : FearCalibrator where
  baseline_samples := []
  target_samples := ⌊calibration_duration * fps⌋₊
  mean := 0
  std_dev := 1
  calibrated := false

/-- `FearCalibrator::compute_baseline`: arithmetic mean, population
variance, `std_dev = sqrt(variance)` clamped to `1.0` when below `0.01`. -/
def FearCalibrator.compute_baseline (c : FearCalibrator) :
    FearCalibrator × Except FearError Unit :=
  if c.baseline_samples.isEmpty then
    (c, .error .CalibrationIncomplete)
  else
    let n : ℝ := (c.baseline_samples.length : ℝ)
    let mean := c.baseline_samples.sum / n
    let variance := ((c.baseline_samples.map fun x => (x - mean) ^ 2).sum) / n
    let sd := Real.sqrt variance
    let std_dev := if sd < 0.01 then 1 else sd
    ({ c with mean := mean, std_dev := std_dev, calibrated := true }, .ok ())

/-- `FearCalibrator::add_sample`: no-op success once calibrated; otherwise
push the sample and compute the baseline when the buffer reaches
`target_samples`. -/
def FearCalibrator.add_sample (c : FearCalibrator) (raw_fear_logit : ℝ) :
    FearCalibrator × Except FearError Unit :=
  if c.calibrated then
    (c, .ok ())
  else
    let c2 : FearCalibrator :=
      { c with baseline_samples := c.baseline_samples ++ [raw_fear_logit] }
    if c2.target_samples ≤ c2.baseline_samples.length then
      c2.compute_baseline
    else
      (c2, .ok ())

/-- `FearCalibrator::normalize_fear`: neutral `0.3` before calibration,
otherwise the sigmoid of the z-score, clamped to `[0, 1]`. -/
def FearCalibrator.normalize_fear (c : FearCalibrator) (raw_fear_logit : ℝ) : ℝ :=
  if c.calibrated = false then
    0.3
  else
    let z_score := (raw_fear_logit - c.mean) / c.std_dev
    let sigmoid := 1 / (1 + Real.exp (-z_score))
    min (max sigmoid 0) 1

/-- `FearCalibrator::extract_fear_logit`: fear is at fixed index 2 of the
7-class logit vector. -/
def FearCalibrator.extract_fear_logit (emotion_logits : Fin 7 → ℝ) : ℝ :=
  emotion_logits 2

/-- `FearCalibrator::is_calibrated`. -/
def FearCalibrator.is_calibrated (c : FearCalibrator) : Bool :=
  c.calibrated

/-- Feeding a list of samples one by one (each `add_sample` result is
discarded, as in the producer loop's `let _ = calibrator.add_sample(..)`). -/
def FearCalibrator.addSamples (c : FearCalibrator) (xs : List ℝ) : FearCalibrator :=
  xs.foldl (fun acc x => (acc.add_sample x).1) c

/-- Calibration errors, from `spectre_sensor/src/calibrator.rs`. -/
inductive CalibrationError where
  | Frozen
  | InsufficientSamples (min_samples : ℕ)
  | InvalidParameters (reason : String)

/-- Baseline statistics, from `spectre_sensor/src/calibrator.rs`
(`struct BaselineStats`); `last_update` is an `Instant`, modelled as a
real timestamp. -/
structure BaselineStats where
  mean : ℝ
  std_dev : ℝ
  sample_count : ℕ
  last_update : ℝ

/-- `BaselineStats::default()` at time `now`. -/
def BaselineStats.default (now : ℝ) : BaselineStats where
  mean := 0
  std_dev := 1
  sample_count := 0
  last_update := now

/-- Adaptive calibrator state, from `spectre_sensor/src/calibrator.rs`
(`struct AdaptiveCalibrator`); durations and instants are reals. -/
structure AdaptiveCalibrator where
  baseline : BaselineStats
  alpha : ℝ
  frozen : Bool
  min_samples : ℕ
  initial_period : ℝ
  start_time : ℝ
  initial_complete : Bool
  previous_mean : ℝ

/-- `AdaptiveCalibrator::new` at time `now`: stores the supplied alpha
as given (no validation occurs in the constructor). -/
def AdaptiveCalibrator.new (initial_period alpha : ℝ) (now : ℝ) : AdaptiveCalibrator where
  baseline := BaselineStats.default now
  alpha := alpha
  frozen := false
  min_samples := 30
  initial_period := initial_period
  start_time := now
  initial_complete := false
  previous_mean := 0

/-- `AdaptiveCalibrator::with_defaults` (alpha = 0.05). -/
def AdaptiveCalibrator.with_defaults (initial_period : ℝ) (now : ℝ) : AdaptiveCalibrator :=
  AdaptiveCalibrator.new initial_period 0.05 now

/-- `AdaptiveCalibrator::update_initial_calibration`: running mean and a
simple variance estimate (std_dev floored at 0.1), then the completion
check `elapsed >= initial_period && sample_count >= min_samples`.  The
sample count was already incremented by `add_sample`. -/
def AdaptiveCalibrator.update_initial_calibration
    (c : AdaptiveCalibrator) (fear_logit : ℝ) (now : ℝ) :
    AdaptiveCalibrator × Except CalibrationError Unit :=
  let c2 : AdaptiveCalibrator :=
    if c.baseline.sample_count = 1 then
      { c with baseline := { c.baseline with mean := fear_logit, std_dev := 1 } }
    else
      let delta := fear_logit - c.baseline.mean
      let mean2 := c.baseline.mean + delta / (c.baseline.sample_count : ℝ)
      let cm : AdaptiveCalibrator :=
        { c with baseline := { c.baseline with mean := mean2 } }
      if 1 < cm.baseline.sample_count then
        let variance := cm.baseline.std_dev ^ 2
        let new_variance :=
          variance + (delta * delta - variance) / (cm.baseline.sample_count : ℝ)
        { cm with baseline :=
            { cm.baseline with std_dev := max (Real.sqrt new_variance) 0.1 } }
      else
        cm
  let elapsed := now - c2.start_time
  if c2.initial_period ≤ elapsed ∧ c2.min_samples ≤ c2.baseline.sample_count then
    ({ c2 with initial_complete := true, previous_mean := c2.baseline.mean }, .ok ())
  else
    (c2, .ok ())

/-- `AdaptiveCalibrator::update_ema`: EMA updates of mean and variance,
std_dev floored at 0.1. -/
def AdaptiveCalibrator.update_ema (c : AdaptiveCalibrator) (fear_logit : ℝ) :
    AdaptiveCalibrator :=
  let old_mean := c.baseline.mean
  let mean2 := (1 - c.alpha) * c.baseline.mean + c.alpha * fear_logit
  let delta := fear_logit - old_mean
  let variance := c.baseline.std_dev ^ 2
  let new_variance := (1 - c.alpha) * variance + c.alpha * delta ^ 2
  { c with baseline :=
      { c.baseline with mean := mean2,
                        std_dev := max (Real.sqrt new_variance) 0.1 } }

/-- `AdaptiveCalibrator::add_sample` at time `now`: fails with `Frozen`
when frozen (before any mutation), silently skips non-finite samples
(before the count increment), otherwise increments the count, stamps
`last_update`, and dispatches on the phase. -/
def AdaptiveCalibrator.add_sample (c : AdaptiveCalibrator) (fear_logit : F32) (now : ℝ) :
    AdaptiveCalibrator × Except CalibrationError Unit :=
  if c.frozen then
    (c, .error .Frozen)
  else
    match fear_logit with
    | .nonFinite => (c, .ok ())
    | .finite v =>
      let c2 : AdaptiveCalibrator :=
        { c with baseline :=
            { c.baseline with sample_count := c.baseline.sample_count + 1,
                              last_update := now } }
      if c2.initial_complete = false then
        c2.update_initial_calibration v now
      else
        (c2.update_ema v, .ok ())

/-- `AdaptiveCalibrator::is_calibrated`. -/
def AdaptiveCalibrator.is_calibrated (c : AdaptiveCalibrator) : Bool :=
  c.initial_complete

/-- `AdaptiveCalibrator::normalize_fear`: neutral `0.3` until calibrated,
otherwise the sigmoid of the z-score, clamped to `[0, 1]`. -/
def AdaptiveCalibrator.normalize_fear (c : AdaptiveCalibrator) (fear_logit : ℝ) : ℝ :=
  if c.is_calibrated = false then
    0.3
  else
    let z_score := (fear_logit - c.baseline.mean) / c.baseline.std_dev
    let sigmoid := 1 / (1 + Real.exp (-z_score))
    min (max sigmoid 0) 1

/-- `AdaptiveCalibrator::freeze`. -/
def AdaptiveCalibrator.freeze (c : AdaptiveCalibrator) : AdaptiveCalibrator :=
  { c with frozen := true }

/-- `AdaptiveCalibrator::unfreeze`. -/
def AdaptiveCalibrator.unfreeze (c : AdaptiveCalibrator) : AdaptiveCalibrator :=
  { c with frozen := false }

/-- `AdaptiveCalibrator::reset` at time `now`: fresh baseline, restarted
clock, initial phase, unfrozen, zero drift checkpoint. -/
def AdaptiveCalibrator.reset (c : AdaptiveCalibrator) (now : ℝ) : AdaptiveCalibrator :=
  { c with baseline := BaselineStats.default now,
           start_time := now,
           initial_complete := false,
           frozen := false,
           previous_mean := 0 }

/-- `AdaptiveCalibrator::baseline_stats`. -/
def AdaptiveCalibrator.baseline_stats (c : AdaptiveCalibrator) : BaselineStats :=
  c.baseline

/-- `AdaptiveCalibrator::calculate_drift`: returns the updated state and
the drift value. -/
def AdaptiveCalibrator.calculate_drift (c : AdaptiveCalibrator) :
    AdaptiveCalibrator × ℝ :=
  ({ c with previous_mean := c.baseline.mean }, |c.baseline.mean - c.previous_mean|)

/-- `AdaptiveCalibrator::set_alpha`: rejects alpha outside the open
interval `(0, 1)` with `InvalidParameters`, leaving alpha unchanged. -/
def AdaptiveCalibrator.set_alpha (c : AdaptiveCalibrator) (alpha : ℝ) :
    AdaptiveCalibrator × Except CalibrationError Unit :=
  if alpha ≤ 0 ∨ 1 ≤ alpha then
    (c, .error (.InvalidParameters "Alpha must be between 0 and 1"))
  else
    ({ c with alpha := alpha }, .ok ())

/-- The public mutating operations of the adaptive calibrator, used to
state once-calibrated-stays-calibrated across every operation. -/
inductive AdaptiveOp where
  | addSample (x : F32) (now : ℝ)
  | freeze
  | unfreeze
  | setAlpha (alpha : ℝ)
  | calculateDrift
  | reset (now : ℝ)

/-- Whether an operation is the explicit `reset`. -/
def AdaptiveOp.isReset : AdaptiveOp → Bool
  | .reset _ => true
  | _ => false

/-- The state after running an operation (for fallible operations, the
state component; an error leaves the state unchanged, as in the source). -/
def AdaptiveOp.apply (op : AdaptiveOp) (c : AdaptiveCalibrator) : AdaptiveCalibrator :=
  match op with
  | .addSample x now => (c.add_sample x now).1
  | .freeze => c.freeze
  | .unfreeze => c.unfreeze
  | .setAlpha a => (c.set_alpha a).1
  | .calculateDrift => (c.calculate_drift).1
  | .reset now => c.reset now

/-- Fear bucket, from `crates/core/src/types.rs` and
`spectre_sensor/src/types.rs` (the two definitions are identical). -/
inductive FearBucket where
  | Low
  | Medium
  | High
deriving DecidableEq

/-- `FearBucket::from_score`. -/
def FearBucket.from_score (score : ℝ) : FearBucket :=
  if score < 0.33 then .Low
  else if score < 0.66 then .Medium
  else .High

/-- `FearBucket::distortion_intensity`. -/
def FearBucket.distortion_intensity : FearBucket → ℝ
  | .Low => 0.1
  | .Medium => 0.5
  | .High => 1.0

/-- A fear score measurement, from `crates/core/src/types.rs`
(`struct FearScore`); the `Instant::now()` timestamp is the explicit
`timestamp` argument. -/
structure FearScore where
  value : ℝ
  emotion_logits : Fin 7 → ℝ
  confidence : ℝ
  calibrated : Bool
  timestamp : ℝ

/-- `FearScore::new_calibrated`. -/
def FearScore.new_calibrated (value : ℝ) (emotion_logits : Fin 7 → ℝ)
    (confidence : ℝ) (now : ℝ) : FearScore where
  value := value
  emotion_logits := emotion_logits
  confidence := confidence
  calibrated := true
  timestamp := now

/-- `FearScore::new_uncalibrated`. -/
def FearScore.new_uncalibrated (value : ℝ) (emotion_logits : Fin 7 → ℝ)
    (confidence : ℝ) (now : ℝ) : FearScore where
  value := value
  emotion_logits := emotion_logits
  confidence := confidence
  calibrated := false
  timestamp := now

/-- A fear measurement frame, from `spectre_sensor/src/types.rs`
(`struct FearFrame`); durations and instants are reals. -/
structure FearFrame where
  timestamp : ℝ
  fear_score : ℝ
  emotion_logits : Fin 7 → ℝ
  confidence : ℝ
  calibrated : Bool
  inference_latency : ℝ

/-- The state of a bounded `async_channel`: the queued items in
production order, the capacity, and whether the receiving side has been
closed (all receivers dropped). -/
structure Channel (α : Type) where
  queue : List α
  capacity : ℕ
  closed : Bool

/-- The error cases of `async_channel::Sender::try_send`, each carrying
back the rejected message. -/
inductive TrySendError (α : Type) where
  | Full (msg : α)
  | Closed (msg : α)

/-- Non-blocking bounded send: fails with `Closed` when the receiving
side is gone, with `Full` when the queue is at capacity, and otherwise
enqueues the message at the back.  It is a total function of the channel
state: the producer never waits. -/
def Channel.try_send (ch : Channel α) (msg : α) :
    Channel α × Option (TrySendError α) :=
  if ch.closed then
    (ch, some (.Closed msg))
  else if ch.capacity ≤ ch.queue.length then
    (ch, some (.Full msg))
  else
    ({ ch with queue := ch.queue ++ [msg] }, none)

/-- Whether the producer loop keeps running after a step or breaks out. -/
inductive LoopControl where
  | next
  | terminate
deriving DecidableEq

/-- Outcome of the send step of `EmotionSensor::processing_loop`: the
channel state, the dropped-frame counter of the shared metrics, and
whether the loop continues. -/
structure SendStepResult (α : Type) where
  channel : Channel α
  dropped_frames : ℕ
  control : LoopControl

/-- The send step of `EmotionSensor::processing_loop`
(`spectre_sensor/src/sensor.rs`): `try_send`; on `Full`, the new frame is
dropped and `metrics.record_dropped_frame()` increments the counter; on
`Closed`, the loop breaks. -/
def processing_loop_send_step (ch : Channel FearFrame) (dropped_frames : ℕ)
    (frame : FearFrame) : SendStepResult FearFrame :=
  match ch.try_send frame with
  | (ch2, none) => ⟨ch2, dropped_frames, .next⟩
  | (ch2, some (.Full _)) => ⟨ch2, dropped_frames + 1, .next⟩
  | (ch2, some (.Closed _)) => ⟨ch2, dropped_frames, .terminate⟩

/-- The send step of the `OnnxFearSensor::start` producer loop
(`crates/fear_sensor/src/onnx_sensor.rs`): on `Full` the new score is
dropped (a debug log only; this loop keeps no dropped-frame counter);
on `Closed` the loop breaks. -/
def onnx_send_step (ch : Channel FearScore) (score : FearScore) :
    Channel FearScore × LoopControl :=
  match ch.try_send score with
  | (ch2, none) => (ch2, .next)
  | (ch2, some (.Full _)) => (ch2, .next)
  | (ch2, some (.Closed _)) => (ch2, .terminate)

/-- The per-frame scoring step of the `OnnxFearSensor::start` producer
loop: extract the fear logit, feed the batch calibrator while it is not
yet calibrated (result discarded), then build a calibrated score via
`normalize_fear` or an uncalibrated score carrying the raw logit. -/
def onnx_build_score (calibrator : FearCalibrator) (emotion_logits : Fin 7 → ℝ)
    (now : ℝ) : FearCalibrator × FearScore :=
  let fear_logit := FearCalibrator.extract_fear_logit emotion_logits
  let calibrator2 :=
    if calibrator.is_calibrated = false then (calibrator.add_sample fear_logit).1
    else calibrator
  let score :=
    if calibrator2.is_calibrated then
      FearScore.new_calibrated (calibrator2.normalize_fear fear_logit)
        emotion_logits 0.9 now
    else
      FearScore.new_uncalibrated fear_logit emotion_logits 0.9 now
  (calibrator2, score)

/-- `from_score` yields `Low` exactly below 0.33. -/
theorem from_score_eq_low_iff (s : ℝ) :
    FearBucket.from_score s = .Low ↔ s < 0.33 := by
  unfold FearBucket.from_score
  split_ifs with ha hb
  · simp [ha]
  · simpa using ha
  · simpa using ha

/-- `from_score` yields `Medium` exactly on `[0.33, 0.66)`. -/
theorem from_score_eq_medium_iff (s : ℝ) :
    FearBucket.from_score s = .Medium ↔ 0.33 ≤ s ∧ s < 0.66 := by
  unfold FearBucket.from_score
  split_ifs with ha hb
  · constructor
    · intro h; simp at h
    · intro h; linarith [h.1]
  · exact ⟨fun _ => ⟨not_lt.mp ha, hb⟩, fun _ => rfl⟩
  · constructor
    · intro h; simp at h
    · intro h; exact absurd h.2 hb

/-- `from_score` yields `High` exactly from 0.66 upward. -/
theorem from_score_eq_high_iff (s : ℝ) :
    FearBucket.from_score s = .High ↔ 0.66 ≤ s := by
  unfold FearBucket.from_score
  split_ifs with ha hb
  · constructor
    · intro h; simp at h
    · intro h; linarith
  · constructor
    · intro h; simp at h
    · intro h; exact absurd h (not_le.mpr hb)
  · exact ⟨fun _ => not_lt.mp hb, fun _ => rfl⟩

/-- C2: `FearBucket::from_score` realizes the partition
`[0,0.33) → Low, [0.33,0.66) → Medium, [0.66,1] → High` on `[0,1]`,
with the documented boundary values and the distortion-intensity
constants `0.1 / 0.5 / 1.0`. -/
theorem fear_bucket_partition :
    (∀ s : ℝ, 0 ≤ s → s ≤ 1 →
      ((0 ≤ s ∧ s < 0.33) ↔ FearBucket.from_score s = .Low) ∧
      ((0.33 ≤ s ∧ s < 0.66) ↔ FearBucket.from_score s = .Medium) ∧
      ((0.66 ≤ s ∧ s ≤ 1) ↔ FearBucket.from_score s = .High))
    ∧ FearBucket.from_score 0 = .Low
    ∧ FearBucket.from_score 0.329 = .Low
    ∧ FearBucket.from_score 0.33 = .Medium
    ∧ FearBucket.from_score 0.659 = .Medium
    ∧ FearBucket.from_score 0.66 = .High
    ∧ FearBucket.from_score 1 = .High
    ∧ FearBucket.Low.distortion_intensity = 0.1
    ∧ FearBucket.Medium.distortion_intensity = 0.5
    ∧ FearBucket.High.distortion_intensity = 1.0 := by
  refine ⟨fun s h0 h1 => ⟨?_, ?_, ?_⟩, ?_, ?_, ?_, ?_, ?_, ?_, rfl, rfl, rfl⟩
  · rw [from_score_eq_low_iff]
    exact ⟨fun h => h.2, fun h => ⟨h0, h⟩⟩
  · rw [from_score_eq_medium_iff]
  · rw [from_score_eq_high_iff]
    exact ⟨fun h => h.1, fun h => ⟨h, h1⟩⟩
  · exact (from_score_eq_low_iff 0).mpr (by norm_num)
  · exact (from_score_eq_low_iff 0.329).mpr (by norm_num)
  · exact (from_score_eq_medium_iff 0.33).mpr (by norm_num)
  · exact (from_score_eq_medium_iff 0.659).mpr (by norm_num)
  · exact (from_score_eq_high_iff 0.66).mpr (by norm_num)
  · exact (from_score_eq_high_iff 1).mpr (by norm_num)

/-- Witness for C2 at the concrete score 0.5. -/
theorem fear_bucket_partition_witness :
    (0 : ℝ) ≤ 0.5 ∧ (0.5 : ℝ) ≤ 1 ∧ FearBucket.from_score 0.5 = .Medium :=
  ⟨by norm_num, by norm_num,
    ((fear_bucket_partition.1 0.5 (by norm_num) (by norm_num)).2.1).mp
      ⟨by norm_num, by norm_num⟩⟩

/-- C3: with zero samples submitted, both calibrator variants report
`is_calibrated() == false` and `normalize_fear(x) == 0.3` for every
input `x`. -/
theorem pre_calibration_neutrality (d fps p a now x : ℝ) :
    (FearCalibrator.new d fps).is_calibrated = false
    ∧ (FearCalibrator.new d fps).normalize_fear x = 0.3
    ∧ (AdaptiveCalibrator.new p a now).is_calibrated = false
    ∧ (AdaptiveCalibrator.new p a now).normalize_fear x = 0.3 :=
  ⟨rfl, rfl, rfl, rfl⟩

/-- `update_initial_calibration` never changes the sample count. -/
theorem update_initial_sample_count (c : AdaptiveCalibrator) (v now : ℝ) :
    ((c.update_initial_calibration v now).1).baseline.sample_count
      = c.baseline.sample_count := by
  simp only [AdaptiveCalibrator.update_initial_calibration]
  split_ifs <;> rfl

/-- `update_initial_calibration` never changes `last_update`. -/
theorem update_initial_last_update (c : AdaptiveCalibrator) (v now : ℝ) :
    ((c.update_initial_calibration v now).1).baseline.last_update
      = c.baseline.last_update := by
  simp only [AdaptiveCalibrator.update_initial_calibration]
  split_ifs <;> rfl

/-- `update_initial_calibration` always reports success. -/
theorem update_initial_result (c : AdaptiveCalibrator) (v now : ℝ) :
    (c.update_initial_calibration v now).2 = .ok () := by
  simp only [AdaptiveCalibrator.update_initial_calibration]
  split_ifs <;> rfl

/-- `update_initial_calibration` flips `initial_complete` to true exactly
when the elapsed time reaches the initial period and the sample count
reaches the minimum. -/
theorem update_initial_complete_iff (c : AdaptiveCalibrator) (v now : ℝ)
    (hc : c.initial_complete = false) :
    ((c.update_initial_calibration v now).1).initial_complete = true ↔
      (c.initial_period ≤ now - c.start_time
        ∧ c.min_samples ≤ c.baseline.sample_count) := by
  simp only [AdaptiveCalibrator.update_initial_calibration]
  split_ifs with h1 h2 h3 h4 <;> simp_all

/-- `update_ema` changes neither the phase flag nor the sample count nor
`last_update`. -/
theorem update_ema_preserves (c : AdaptiveCalibrator) (v : ℝ) :
    (c.update_ema v).initial_complete = c.initial_complete
    ∧ (c.update_ema v).baseline.sample_count = c.baseline.sample_count
    ∧ (c.update_ema v).baseline.last_update = c.baseline.last_update :=
  ⟨rfl, rfl, rfl⟩

/-- C5: while frozen, `add_sample` fails with `Frozen` for any input and
leaves `baseline_stats()` unchanged; after `unfreeze()`, `add_sample`
with a finite value succeeds and mutates the baseline (count increments,
`last_update` is restamped). -/
theorem adaptive_frozen_rejects (c : AdaptiveCalibrator) (h : c.frozen = true)
    (x : F32) (now now2 v : ℝ) :
    c.add_sample x now = (c, .error .Frozen)
    ∧ (c.add_sample x now).1.baseline_stats = c.baseline_stats
    ∧ ((c.unfreeze).add_sample (.finite v) now2).2 = .ok ()
    ∧ ((c.unfreeze).add_sample (.finite v) now2).1.baseline_stats.sample_count
        = c.baseline_stats.sample_count + 1
    ∧ ((c.unfreeze).add_sample (.finite v) now2).1.baseline_stats.last_update
        = now2 := by
  have hfrozen : c.add_sample x now = (c, .error .Frozen) := by
    simp [AdaptiveCalibrator.add_sample, h]
  refine ⟨hfrozen, by rw [hfrozen], ?_, ?_, ?_⟩
  all_goals
    simp only [AdaptiveCalibrator.add_sample, AdaptiveCalibrator.unfreeze,
      AdaptiveCalibrator.baseline_stats, Bool.false_eq_true, if_false]
  · split_ifs with hphase
    · exact update_initial_result _ v now2
    · rfl
  · split_ifs with hphase
    · rw [update_initial_sample_count]
    · exact (update_ema_preserves _ v).2.1
  · split_ifs with hphase
    · rw [update_initial_last_update]
    · exact (update_ema_preserves _ v).2.2

/-- Witness for C5 on a concrete frozen calibrator. -/
theorem adaptive_frozen_rejects_witness :
    ((AdaptiveCalibrator.new 30 0.05 0).freeze).frozen = true
    ∧ ((AdaptiveCalibrator.new 30 0.05 0).freeze).add_sample (.finite 1) 1
        = ((AdaptiveCalibrator.new 30 0.05 0).freeze, .error .Frozen) :=
  ⟨rfl, (adaptive_frozen_rejects ((AdaptiveCalibrator.new 30 0.05 0).freeze)
    rfl (.finite 1) 1 2 3).1⟩

/-- C6: when not frozen, a non-finite sample is silently discarded:
`add_sample` succeeds and the whole state (in particular count, mean and
std-dev) is unchanged. -/
theorem adaptive_nonfinite_skipped (c : AdaptiveCalibrator)
    (h : c.frozen = false) (now : ℝ) :
    c.add_sample .nonFinite now = (c, .ok ())
    ∧ (c.add_sample .nonFinite now).1.baseline.sample_count
        = c.baseline.sample_count
    ∧ (c.add_sample .nonFinite now).1.baseline.mean = c.baseline.mean
    ∧ (c.add_sample .nonFinite now).1.baseline.std_dev = c.baseline.std_dev := by
  have hmain : c.add_sample .nonFinite now = (c, .ok ()) := by
    simp [AdaptiveCalibrator.add_sample, h]
  exact ⟨hmain, by rw [hmain], by rw [hmain], by rw [hmain]⟩

/-- Witness for C6 on a concrete unfrozen calibrator. -/
theorem adaptive_nonfinite_skipped_witness :
    (AdaptiveCalibrator.new 30 0.05 0).frozen = false
    ∧ (AdaptiveCalibrator.new 30 0.05 0).add_sample .nonFinite 1
        = (AdaptiveCalibrator.new 30 0.05 0, .ok ()) :=
  ⟨rfl, (adaptive_nonfinite_skipped (AdaptiveCalibrator.new 30 0.05 0) rfl 1).1⟩

/-- C8 counterexample: the constructor accepts an out-of-range alpha.
`AdaptiveCalibrator::new` cannot fail (it returns the calibrator, not a
`Result`), and with `alpha = 2` it stores 2 and yields a working,
unfrozen calibrator whose `add_sample` succeeds — the supplied alpha is
not rejected at construction. -/
theorem adaptive_new_accepts_alpha_two :
    (AdaptiveCalibrator.new 30 2 0).alpha = 2
    ∧ (AdaptiveCalibrator.new 30 2 0).frozen = false
    ∧ ((AdaptiveCalibrator.new 30 2 0).add_sample (.finite 1) 1).2 = .ok () := by
  refine ⟨rfl, rfl, ?_⟩
  simp only [AdaptiveCalibrator.add_sample]
  split_ifs with h1 h2
  · simp [AdaptiveCalibrator.new] at h1
  · exact update_initial_result _ 1 1
  · rfl

/-- C8 amended: alpha is validated only where `set_alpha` supplies it —
`set_alpha` accepts `0 < alpha < 1` (updating alpha) and otherwise fails
with `InvalidParameters`, leaving the state unchanged; the constructor
stores whatever alpha it is given, unvalidated. -/
theorem set_alpha_validates (c : AdaptiveCalibrator) (a p a0 now : ℝ) :
    (AdaptiveCalibrator.new p a0 now).alpha = a0
    ∧ (0 < a → a < 1 → c.set_alpha a = ({ c with alpha := a }, .ok ()))
    ∧ (a ≤ 0 ∨ 1 ≤ a →
        c.set_alpha a
          = (c, .error (.InvalidParameters "Alpha must be between 0 and 1"))) := by
  refine ⟨rfl, ?_, ?_⟩
  · intro h0 h1
    simp only [AdaptiveCalibrator.set_alpha]
    rw [if_neg]
    push_neg
    exact ⟨h0, h1⟩
  · intro h
    simp only [AdaptiveCalibrator.set_alpha]
    rw [if_pos h]

/-- Witness for C8's amended statement: `set_alpha 2` is rejected and
`set_alpha 0.5` is accepted on a concrete calibrator. -/
theorem set_alpha_validates_witness :
    (AdaptiveCalibrator.new 30 0.05 0).set_alpha 2
      = (AdaptiveCalibrator.new 30 0.05 0,
          .error (.InvalidParameters "Alpha must be between 0 and 1"))
    ∧ (AdaptiveCalibrator.new 30 0.05 0).set_alpha 0.5
      = ({ AdaptiveCalibrator.new 30 0.05 0 with alpha := 0.5 }, .ok ()) :=
  ⟨(set_alpha_validates (AdaptiveCalibrator.new 30 0.05 0) 2 30 0.05 0).2.2
      (Or.inr (by norm_num)),
    (set_alpha_validates (AdaptiveCalibrator.new 30 0.05 0) 0.5 30 0.05 0).2.1
      (by norm_num) (by norm_num)⟩

/-- C9: in the producer loops' send step, a full channel means the newly
produced frame is dropped — the channel (and hence every already-queued
frame) is untouched and the loop continues without blocking — with the
dropped-frame counter of `EmotionSensor::processing_loop` incremented by
exactly one (and left untouched on a successful send); a closed
receiving side terminates the loop.  The `OnnxFearSensor` loop behaves
the same except that it keeps no dropped-frame counter. -/
theorem send_step_back_pressure (ch : Channel FearFrame) (dropped : ℕ)
    (frame : FearFrame) (chS : Channel FearScore) (score : FearScore) :
    (ch.closed = false → ch.capacity ≤ ch.queue.length →
        processing_loop_send_step ch dropped frame
          = ⟨ch, dropped + 1, .next⟩)
    ∧ (ch.closed = false → ch.queue.length < ch.capacity →
        processing_loop_send_step ch dropped frame
          = ⟨{ ch with queue := ch.queue ++ [frame] }, dropped, .next⟩)
    ∧ (ch.closed = true →
        processing_loop_send_step ch dropped frame = ⟨ch, dropped, .terminate⟩)
    ∧ (chS.closed = false → chS.capacity ≤ chS.queue.length →
        onnx_send_step chS score = (chS, .next))
    ∧ (chS.closed = true → onnx_send_step chS score = (chS, .terminate)) := by
  refine ⟨fun hc hf => ?_, fun hc hf => ?_, fun hc => ?_, fun hc hf => ?_,
    fun hc => ?_⟩
  · simp [processing_loop_send_step, Channel.try_send, hc, hf]
  · simp [processing_loop_send_step, Channel.try_send, hc, Nat.not_le.mpr hf]
  · simp [processing_loop_send_step, Channel.try_send, hc]
  · simp [onnx_send_step, Channel.try_send, hc, hf]
  · simp [onnx_send_step, Channel.try_send, hc]

/-- Witness for C9: a full capacity-2 channel drops the new frame and
bumps the counter from 7 to 8; a closed channel terminates the loop. -/
theorem send_step_back_pressure_witness :
    processing_loop_send_step
        ⟨[⟨0, 0, fun _ => 0, 0, false, 0⟩, ⟨1, 0, fun _ => 0, 0, false, 0⟩], 2, false⟩
        7 ⟨2, 0, fun _ => 0, 0, false, 0⟩
      = ⟨⟨[⟨0, 0, fun _ => 0, 0, false, 0⟩, ⟨1, 0, fun _ => 0, 0, false, 0⟩], 2, false⟩,
          8, .next⟩
    ∧ onnx_send_step ⟨[], 2, true⟩ ⟨0, fun _ => 0, 0, false, 0⟩
      = (⟨[], 2, true⟩, .terminate) :=
  ⟨(send_step_back_pressure _ 7 _ ⟨[], 2, true⟩ ⟨0, fun _ => 0, 0, false, 0⟩).1
      rfl (by decide),
    (send_step_back_pressure ⟨[], 2, false⟩ 0 ⟨0, 0, fun _ => 0, 0, false, 0⟩
      _ _).2.2.2.2 rfl⟩

/-- C10: a frame built by the ONNX producer loop while the batch
calibrator is (still) uncalibrated is an uncalibrated `FearScore` whose
`value` is the raw fear logit `emotion_logits[2]` itself — while
`normalize_fear` would have returned the neutral 0.3 on that same state;
only frames built once the calibrator reports calibrated carry
`normalize_fear` of the fear logit. -/
theorem onnx_uncalibrated_value_is_raw_logit (c : FearCalibrator)
    (logits : Fin 7 → ℝ) (now : ℝ) :
    ((onnx_build_score c logits now).2.calibrated = false →
        (onnx_build_score c logits now).2.value = logits 2
        ∧ (onnx_build_score c logits now).1.normalize_fear (logits 2) = 0.3)
    ∧ ((onnx_build_score c logits now).2.calibrated = true →
        (onnx_build_score c logits now).2.value
          = (onnx_build_score c logits now).1.normalize_fear (logits 2)) := by
  simp only [onnx_build_score, FearCalibrator.extract_fear_logit]
  set c2 := if c.is_calibrated = false then (c.add_sample (logits 2)).1 else c with hc2
  by_cases hcal : c2.is_calibrated = true
  · simp [hcal, FearScore.new_calibrated]
  · have hb : c2.calibrated = false := by
      revert hcal
      unfold FearCalibrator.is_calibrated
      cases c2.calibrated <;> simp
    simp [FearCalibrator.is_calibrated, hb, FearScore.new_uncalibrated,
      FearCalibrator.normalize_fear]

/-- Witness for C10: one sample into a fresh 5-sample batch calibrator
leaves it uncalibrated, and the emitted score carries the raw logit 0.8
uncalibrated. -/
theorem onnx_uncalibrated_value_witness :
    (onnx_build_score ⟨[], 5, 0, 1, false⟩ (fun _ => 0.8) 0).2.calibrated = false
    ∧ (onnx_build_score ⟨[], 5, 0, 1, false⟩ (fun _ => 0.8) 0).2.value = 0.8
    ∧ (onnx_build_score ⟨[], 5, 0, 1, false⟩ (fun _ => 0.8) 0).1.normalize_fear
        ((fun _ : Fin 7 => (0.8 : ℝ)) 2) = 0.3 := by
  have h := onnx_uncalibrated_value_is_raw_logit ⟨[], 5, 0, 1, false⟩
    (fun _ => 0.8) 0
  exact ⟨rfl, (h.1 rfl).1, (h.1 rfl).2⟩

/-- C7 counterexample: `FearCalibrator::new(0.7, 1.0)` truncates
`0.7 × 1.0` to `target_samples = 0` (round would give 1), below the
claimed minimum of 1, and instead of any configuration error it yields a
usable calibrator whose very first `add_sample` succeeds and calibrates. -/
theorem batch_new_truncation_counterexample :
    (FearCalibrator.new 0.7 1).target_samples = 0
    ∧ ((FearCalibrator.new 0.7 1).add_sample 0.5).2 = .ok ()
    ∧ ((FearCalibrator.new 0.7 1).add_sample 0.5).1.calibrated = true := by
  have hfloor0 : (⌊(0.7 : ℝ)⌋₊ : ℕ) = 0 := by
    rw [Nat.floor_eq_zero]
    norm_num
  have hfloor : (⌊(0.7 : ℝ) * 1⌋₊ : ℕ) = 0 := by
    rw [mul_one]
    exact hfloor0
  have hfloor1 : (⌊(7 / 10 : ℝ)⌋₊ : ℕ) = 0 := by
    rw [Nat.floor_eq_zero]
    norm_num
  refine ⟨hfloor, ?_, ?_⟩ <;>
    norm_num [FearCalibrator.new, FearCalibrator.add_sample,
      FearCalibrator.compute_baseline, hfloor, hfloor0, hfloor1]

/-- C7 amended: construction computes `target_samples` by the truncating
cast of `calibration_duration × fps` (zero for products below 1); no
minimum is enforced and no configuration error exists — with
`target_samples = 0` the calibrator is usable and becomes calibrated on
its first sample, with that sample as mean and the clamped `std_dev = 1`. -/
theorem batch_new_target_truncates (d fps x : ℝ)
    (h0 : (FearCalibrator.new d fps).target_samples = 0) :
    (FearCalibrator.new d fps).target_samples = ⌊d * fps⌋₊
    ∧ ((FearCalibrator.new d fps).add_sample x).2 = .ok ()
    ∧ ((FearCalibrator.new d fps).add_sample x).1.calibrated = true
    ∧ ((FearCalibrator.new d fps).add_sample x).1.mean = x
    ∧ ((FearCalibrator.new d fps).add_sample x).1.std_dev = 1 := by
  have hfloor : (⌊d * fps⌋₊ : ℕ) = 0 := h0
  refine ⟨rfl, ?_, ?_, ?_, ?_⟩ <;>
    norm_num [FearCalibrator.new, FearCalibrator.add_sample,
      FearCalibrator.compute_baseline, hfloor, Real.sqrt_zero]

/-- Witness for C7's amended statement at duration 0.7, fps 1. -/
theorem batch_new_target_truncates_witness :
    (FearCalibrator.new 0.7 1).target_samples = 0
    ∧ ((FearCalibrator.new 0.7 1).add_sample 0.6).1.calibrated = true
    ∧ ((FearCalibrator.new 0.7 1).add_sample 0.6).1.mean = 0.6 := by
  have h0 : (FearCalibrator.new 0.7 1).target_samples = 0 := by
    show (⌊(0.7 : ℝ) * 1⌋₊ : ℕ) = 0
    rw [Nat.floor_eq_zero]
    norm_num
  exact ⟨h0, (batch_new_target_truncates 0.7 1 0.6 h0).2.2.1,
    (batch_new_target_truncates 0.7 1 0.6 h0).2.2.2.1⟩

/-- A single `add_sample` on an uncalibrated buffer that stays strictly
below the target just appends the sample. -/
theorem add_sample_collect (c : FearCalibrator) (x : ℝ)
    (hc : c.calibrated = false)
    (hlt : c.baseline_samples.length + 1 < c.target_samples) :
    c.add_sample x
      = ({ c with baseline_samples := c.baseline_samples ++ [x] }, .ok ()) := by
  simp only [FearCalibrator.add_sample]
  split_ifs with ha hb
  · simp [hc] at ha
  · exfalso
    revert hb
    simp only [List.length_append, List.length_cons, List.length_nil]
    omega
  · rfl

/-- Feeding samples that keep the buffer strictly below the target just
accumulates them, leaving the calibrator uncalibrated. -/
theorem addSamples_collect (xs : List ℝ) (c : FearCalibrator)
    (hc : c.calibrated = false)
    (hlen : c.baseline_samples.length + xs.length < c.target_samples) :
    c.addSamples xs = { c with baseline_samples := c.baseline_samples ++ xs } := by
  induction xs generalizing c with
  | nil => simp [FearCalibrator.addSamples]
  | cons y ys ih =>
    have hstep := add_sample_collect c y hc
      (by simp only [List.length_cons] at hlen; omega)
    have hsplit : c.addSamples (y :: ys) = ((c.add_sample y).1).addSamples ys := rfl
    rw [hsplit, hstep]
    rw [ih { c with baseline_samples := c.baseline_samples ++ [y] } hc
      (by simp only [List.length_append, List.length_cons,
        List.length_nil] at hlen ⊢; omega)]
    simp

/-- `compute_baseline` on a non-empty buffer: arithmetic mean, square
root of the population variance clamped at the 0.01 floor to 1, and the
calibrated flag set. -/
theorem compute_baseline_spec (c : FearCalibrator) (h : c.baseline_samples ≠ []) :
    c.compute_baseline =
      ({ c with
          mean := c.baseline_samples.sum / (c.baseline_samples.length : ℝ),
          std_dev :=
            if Real.sqrt (((c.baseline_samples.map fun x =>
                  (x - c.baseline_samples.sum / (c.baseline_samples.length : ℝ)) ^ 2).sum)
                / (c.baseline_samples.length : ℝ)) < 0.01
            then 1
            else Real.sqrt (((c.baseline_samples.map fun x =>
                  (x - c.baseline_samples.sum / (c.baseline_samples.length : ℝ)) ^ 2).sum)
                / (c.baseline_samples.length : ℝ)),
          calibrated := true }, .ok ()) := by
  unfold FearCalibrator.compute_baseline
  rw [if_neg (by simpa using h)]

/-- Feeding exactly `target_samples ≥ 1` samples into a fresh buffer
triggers the baseline computation on exactly those samples. -/
theorem addSamples_full (c : FearCalibrator) (xs : List ℝ)
    (hc : c.calibrated = false) (hs : c.baseline_samples = [])
    (h1 : 1 ≤ c.target_samples) (hlen : xs.length = c.target_samples) :
    c.addSamples xs = ({ c with baseline_samples := xs }).compute_baseline.1 := by
  obtain ⟨ys, y, rfl⟩ : ∃ ys y, xs = ys ++ [y] := by
    rcases List.eq_nil_or_concat xs with h | ⟨ys, y, h⟩
    · subst h; simp at hlen; omega
    · exact ⟨ys, y, by simpa [List.concat_eq_append] using h⟩
  have hys : ys.length + 1 = c.target_samples := by simpa using hlen
  have hcol := addSamples_collect ys c hc
    (by rw [hs]; simp only [List.length_nil]; omega)
  have hsplit : c.addSamples (ys ++ [y]) = ((c.addSamples ys).add_sample y).1 := by
    unfold FearCalibrator.addSamples
    rw [List.foldl_append]
    rfl
  rw [hsplit, hcol, hs]
  rw [List.nil_append]
  simp only [FearCalibrator.add_sample]
  split_ifs with ha hb
  · simp [hc] at ha
  · rfl
  · exfalso
    apply hb
    show c.target_samples ≤ (ys ++ [y]).length
    simp only [List.length_append, List.length_cons, List.length_nil]
    omega

/-- C1: feeding any `target_samples = t ≥ 1` samples into a fresh batch
calibrator calibrates it with the arithmetic mean and the
floor-clamped square root of the population variance; in particular `t`
identical samples `v` give `mean = v` and `std_dev = 1` (floor hit). -/
theorem batch_calibration_deterministic (d fps : ℝ) (t : ℕ)
    (ht : (FearCalibrator.new d fps).target_samples = t) (h1 : 1 ≤ t)
    (xs : List ℝ) (hlen : xs.length = t) (v : ℝ) :
    (FearCalibrator.new d fps).addSamples xs
      = { baseline_samples := xs, target_samples := t,
          mean := xs.sum / (t : ℝ),
          std_dev :=
            if Real.sqrt (((xs.map fun x => (x - xs.sum / (t : ℝ)) ^ 2).sum)
                / (t : ℝ)) < 0.01
            then 1
            else Real.sqrt (((xs.map fun x => (x - xs.sum / (t : ℝ)) ^ 2).sum)
                / (t : ℝ)),
          calibrated := true }
    ∧ (FearCalibrator.new d fps).addSamples (List.replicate t v)
      = { baseline_samples := List.replicate t v, target_samples := t,
          mean := v, std_dev := 1, calibrated := true } := by
  have ht2 : (⌊d * fps⌋₊ : ℕ) = t := ht
  have hgen : ∀ ys : List ℝ, ys.length = t →
      (FearCalibrator.new d fps).addSamples ys
        = { baseline_samples := ys, target_samples := t,
            mean := ys.sum / (t : ℝ),
            std_dev :=
              if Real.sqrt (((ys.map fun x => (x - ys.sum / (t : ℝ)) ^ 2).sum)
                  / (t : ℝ)) < 0.01
              then 1
              else Real.sqrt (((ys.map fun x => (x - ys.sum / (t : ℝ)) ^ 2).sum)
                  / (t : ℝ)),
            calibrated := true } := by
    intro ys hys
    have hne : ys ≠ [] := by
      intro hnil
      rw [hnil] at hys
      simp at hys
      omega
    rw [addSamples_full _ _ rfl rfl (by rw [ht]; exact h1) (by rw [ht]; exact hys)]
    rw [compute_baseline_spec _ hne]
    simp [FearCalibrator.new, hys, ht2]
  refine ⟨hgen xs hlen, ?_⟩
  rw [hgen (List.replicate t v) (List.length_replicate t v)]
  have hm : (List.replicate t v).sum / (t : ℝ) = v := by
    rw [List.sum_replicate, nsmul_eq_mul,
      mul_div_cancel_left₀ v (Nat.cast_ne_zero.mpr (by omega))]
  rw [hm, List.map_replicate]
  have h0 : ((v - v) ^ 2 : ℝ) = 0 := by ring
  rw [h0, List.sum_replicate, smul_zero, zero_div, Real.sqrt_zero]
  norm_num

/-- Witness for C1: two identical samples 5 into a 2-sample batch
calibrator give mean 5 and clamped `std_dev` 1. -/
theorem batch_calibration_deterministic_witness :
    (FearCalibrator.new 2 1).target_samples = 2
    ∧ (FearCalibrator.new 2 1).addSamples (List.replicate 2 5)
        = { baseline_samples := List.replicate 2 5, target_samples := 2,
            mean := 5, std_dev := 1, calibrated := true } := by
  have ht : (FearCalibrator.new 2 1).target_samples = 2 := by
    show (⌊(2 : ℝ) * 1⌋₊ : ℕ) = 2
    rw [mul_one]
    simp
  exact ⟨ht, (batch_calibration_deterministic 2 1 2 ht (by norm_num)
    (List.replicate 2 5) (List.length_replicate 2 5) 5).2⟩

/-- Once the adaptive calibrator is in EMA mode, `add_sample` keeps it
there. -/
theorem add_sample_keeps_calibrated (c : AdaptiveCalibrator) (x : F32) (now : ℝ)
    (h : c.initial_complete = true) :
    (c.add_sample x now).1.initial_complete = true := by
  cases x with
  | nonFinite =>
    simp only [AdaptiveCalibrator.add_sample]
    split_ifs <;> exact h
  | finite v =>
    simp only [AdaptiveCalibrator.add_sample]
    split_ifs with hf hp
    · exact h
    · simp [h] at hp
    · exact h

/-- C4: the adaptive calibrator reports calibrated only after an
`add_sample` call with a finite sample, unfrozen, in which both the
elapsed time reached the initial period and the (incremented) sample
count reached the minimum threshold (30 by construction); once
calibrated it stays calibrated under every operation except `reset`,
which alone returns it to the uncalibrated initial phase. -/
theorem adaptive_calibration_one_way (c : AdaptiveCalibrator) (op : AdaptiveOp)
    (p a now0 : ℝ) :
    (AdaptiveCalibrator.new p a now0).min_samples = 30
    ∧ (c.is_calibrated = true →
        ((op.apply c).is_calibrated = true ↔ op.isReset = false))
    ∧ (c.is_calibrated = false → (op.apply c).is_calibrated = true →
        ∃ v now, op = .addSample (.finite v) now ∧ c.frozen = false
          ∧ c.initial_period ≤ now - c.start_time
          ∧ c.min_samples ≤ c.baseline.sample_count + 1) := by
  refine ⟨rfl, ?_, ?_⟩
  · intro hcal
    have hic : c.initial_complete = true := hcal
    cases op with
    | addSample x now =>
      have h2 := add_sample_keeps_calibrated c x now hic
      simp [AdaptiveOp.apply, AdaptiveOp.isReset, AdaptiveCalibrator.is_calibrated, h2]
    | freeze =>
      simp [AdaptiveOp.apply, AdaptiveOp.isReset, AdaptiveCalibrator.freeze,
        AdaptiveCalibrator.is_calibrated, hic]
    | unfreeze =>
      simp [AdaptiveOp.apply, AdaptiveOp.isReset, AdaptiveCalibrator.unfreeze,
        AdaptiveCalibrator.is_calibrated, hic]
    | setAlpha a2 =>
      simp only [AdaptiveOp.apply, AdaptiveOp.isReset, AdaptiveCalibrator.set_alpha]
      split_ifs <;> simp [AdaptiveCalibrator.is_calibrated, hic]
    | calculateDrift =>
      simp [AdaptiveOp.apply, AdaptiveOp.isReset, AdaptiveCalibrator.calculate_drift,
        AdaptiveCalibrator.is_calibrated, hic]
    | reset now =>
      simp [AdaptiveOp.apply, AdaptiveOp.isReset, AdaptiveCalibrator.reset,
        AdaptiveCalibrator.is_calibrated]
  · intro hcal hcal2
    have hic : c.initial_complete = false := hcal
    cases op with
    | addSample x now =>
      cases x with
      | nonFinite =>
        exfalso
        simp only [AdaptiveOp.apply, AdaptiveCalibrator.add_sample] at hcal2
        split_ifs at hcal2 <;>
          simp [AdaptiveCalibrator.is_calibrated, hic] at hcal2
      | finite v =>
        simp only [AdaptiveOp.apply, AdaptiveCalibrator.add_sample] at hcal2
        split_ifs at hcal2 with h1
        · exfalso
          simp [AdaptiveCalibrator.is_calibrated, hic] at hcal2
        · have hfr : c.frozen = false := by simpa using h1
          have hc2 : ({ c with baseline :=
              { c.baseline with sample_count := c.baseline.sample_count + 1,
                                last_update := now } }
              : AdaptiveCalibrator).initial_complete = false := hic
          have hcond := (update_initial_complete_iff _ v now hc2).mp hcal2
          exact ⟨v, now, rfl, hfr, hcond.1, hcond.2⟩
    | freeze =>
      exfalso
      simp [AdaptiveOp.apply, AdaptiveCalibrator.freeze,
        AdaptiveCalibrator.is_calibrated, hic] at hcal2
    | unfreeze =>
      exfalso
      simp [AdaptiveOp.apply, AdaptiveCalibrator.unfreeze,
        AdaptiveCalibrator.is_calibrated, hic] at hcal2
    | setAlpha a2 =>
      exfalso
      simp only [AdaptiveOp.apply, AdaptiveCalibrator.set_alpha] at hcal2
      split_ifs at hcal2 <;>
        simp [AdaptiveCalibrator.is_calibrated, hic] at hcal2
    | calculateDrift =>
      exfalso
      simp [AdaptiveOp.apply, AdaptiveCalibrator.calculate_drift,
        AdaptiveCalibrator.is_calibrated, hic] at hcal2
    | reset now =>
      exfalso
      simp [AdaptiveOp.apply, AdaptiveCalibrator.reset,
        AdaptiveCalibrator.is_calibrated] at hcal2

/-- Witness for C4: a concrete calibrated state stays calibrated across
a `freeze`. -/
theorem adaptive_calibration_one_way_witness :
    (⟨⟨0, 1, 30, 0⟩, 0.05, false, 30, 30, 0, true, 0⟩
        : AdaptiveCalibrator).is_calibrated = true
    ∧ (AdaptiveOp.freeze.apply
        ⟨⟨0, 1, 30, 0⟩, 0.05, false, 30, 30, 0, true, 0⟩).is_calibrated = true :=
  ⟨rfl, ((adaptive_calibration_one_way
      ⟨⟨0, 1, 30, 0⟩, 0.05, false, 30, 30, 0, true, 0⟩ .freeze 30 0.05 0).2.1
        rfl).mpr rfl⟩

end Spectremesh
